import Mathlib

/-!
# Router: start-up sequence (`main.go`) and routing engine

Part 1 embeds `main.go`: the package-level configuration variables, `usage`,
`getenvDefault`, `parseDurationOrFatal` and `main`.  The process environment, the
outcome of `flag.Parse`, `time.ParseDuration`, `NewRouter`, `newAPIHandler`,
`versionInfo` and the blocking `ListenAndServe` call are inputs of the run (a `World`);
`main` is a function from a `World` to the sequence of actions the main goroutine
performs together with the way it ends.
-/

namespace Router

/-! ## Environment -/

/-- The process environment: `none` for an unset variable. -/
abbrev Env := String → Option String

/-- Go `os.Getenv`: the value of the variable, or the empty string when it is unset. -/
def osGetenv (env : Env) (key : String) : String :=
  match env key with
  | some v => v
  | none => ""

/-- Function `getenvDefault` (main.go 56-63). -/
def getenvDefault (env : Env) (key : String) (defaultVal : String) : String :=
  let val := osGetenv env key
  if val = "" then defaultVal else val

/-- The package-level `var ( ... )` block (main.go 15-28), evaluated once at start-up. -/
structure Config where
  pubAddr : String
  apiAddr : String
  mongoURL : String
  mongoDbName : String
  mongoPollInterval : String
  errorLogFile : String
  tlsSkipVerify : Bool
  enableDebugOutput : Bool
  backendConnectTimeout : String
  backendHeaderTimeout : String
  frontendReadTimeout : String
  frontendWriteTimeout : String

/-- Initialisers of the package-level variables, in source order (main.go 16-27). -/
def packageVars (env : Env) : Config where
  pubAddr := getenvDefault env "ROUTER_PUBADDR" ":8080"
  apiAddr := getenvDefault env "ROUTER_APIADDR" ":8081"
  mongoURL := getenvDefault env "ROUTER_MONGO_URL" "127.0.0.1"
  mongoDbName := getenvDefault env "ROUTER_MONGO_DB" "router"
  mongoPollInterval := getenvDefault env "ROUTER_MONGO_POLL_INTERVAL" "2s"
  errorLogFile := getenvDefault env "ROUTER_ERROR_LOG" "STDERR"
  tlsSkipVerify := decide (osGetenv env "ROUTER_TLS_SKIP_VERIFY" ≠ "")
  enableDebugOutput := decide (osGetenv env "DEBUG" ≠ "")
  backendConnectTimeout := getenvDefault env "ROUTER_BACKEND_CONNECT_TIMEOUT" "1s"
  backendHeaderTimeout := getenvDefault env "ROUTER_BACKEND_HEADER_TIMEOUT" "20s"
  frontendReadTimeout := getenvDefault env "ROUTER_FRONTEND_READ_TIMEOUT" "60s"
  frontendWriteTimeout := getenvDefault env "ROUTER_FRONTEND_WRITE_TIMEOUT" "60s"

/-! ## Usage text -/

/-- The lines of `helpstring` in `usage` (main.go 31-51), one string per source line. -/
def helpstringLines : List String :=
  [ "",
    "GOV.UK Router %s",
    "Usage: %s [-version]",
    "",
    "The following environment variables and defaults are available:",
    "",
    "ROUTER_PUBADDR=:8080             Address on which to serve public requests",
    "ROUTER_APIADDR=:8081             Address on which to receive reload requests",
    "ROUTER_MONGO_URL=127.0.0.1       Address of mongo cluster (e.g. 'mongo1,mongo2,mongo3')",
    "ROUTER_MONGO_DB=router           Name of mongo database to use",
    "ROUTER_MONGO_POLL_INTERVAL=2s    Interval to poll mongo for route changes",
    "ROUTER_ERROR_LOG=STDERR          File to log errors to (in JSON format)",
    "DEBUG=                           Whether to enable debug output - set to anything to enable",
    "",
    "Timeouts: (values must be parseable by https://pkg.go.dev/time#ParseDuration",
    "",
    "ROUTER_BACKEND_CONNECT_TIMEOUT=1s  Connect timeout when connecting to backends",
    "ROUTER_BACKEND_HEADER_TIMEOUT=15s  Timeout for backend response headers to be returned",
    "ROUTER_FRONTEND_READ_TIMEOUT=60s   See https://cs.opensource.google/go/go/+/master:src/net/http/server.go?q=symbol:ReadTimeout",
    "ROUTER_FRONTEND_WRITE_TIMEOUT=60s  See https://cs.opensource.google/go/go/+/master:src/net/http/server.go?q=symbol:WriteTimeout",
    "" ]

/-- Reads a usage line of the shape `NAME=value   description`: the text before the first
`=` is the name and the text after it up to the first blank is the stated default. A line
without `=` before its first blank states no default. -/
def usageEntry (line : String) : Option (String × String) :=
  let cs := line.toList
  let name := cs.takeWhile (fun c => c ≠ '=' ∧ c ≠ ' ')
  match cs.drop name.length with
  | '=' :: rest => some (String.mk name, String.mk (rest.takeWhile (fun c => c ≠ ' ')))
  | _ => none

/-- The `NAME=default` pairs that the usage text states. -/
def usageDefaults : List (String × String) :=
  helpstringLines.filterMap usageEntry

/-- The default the usage text states for a variable, if it lists the variable. -/
def usageDefault (name : String) : Option String :=
  usageDefaults.lookup name

/-! ## The run of `main` -/

/-- Go `time.Duration`: a count of nanoseconds. -/
abbrev Duration := Int

/-- An operand of `log.Println`. -/
inductive LogArg where
  | str (s : String)
  | dur (d : Duration)
  deriving DecidableEq, Repr

/-- The arguments of the call `NewRouter(mongoURL, mongoDbName, mgoPollInterval,
beConnectTimeout, beHeaderTimeout, errorLogFile)` (main.go 126), in order. -/
structure NewRouterArgs where
  mongoURL : String
  mongoDbName : String
  pollInterval : Duration
  beConnectTimeout : Duration
  beHeaderTimeout : Duration
  logFileName : String
  deriving DecidableEq, Repr

/-- The actions of the main goroutine that the run records, in the order performed. -/
inductive Event where
  /-- Call of `fmt.Printf` to standard output, with the formatted text. -/
  | stdout (text : String)
  /-- Function `usage` printing the help text:
  `fmt.Fprintf(os.Stderr, helpstring, versionInfo(), os.Args[0])`. -/
  | usageText (version progName : String)
  /-- A call of `time.ParseDuration` on the given string. -/
  | parseDuration (s : String)
  /-- The call `initMetrics()`. -/
  | initMetrics
  /-- Call of `log.Println` with the given operands (through `logInfo` or `logWarn`). -/
  | log (msg : List LogArg)
  /-- An assignment to `handlers.TLSSkipVerify`, with the value written (main.go 121 writes
  `true`). -/
  | setTLSSkipVerify (value : Bool)
  /-- The call of `NewRouter` with its arguments and the error it returned (`none` is nil). -/
  | newRouter (args : NewRouterArgs) (err : Option String)
  /-- The statement `go rout.SelfUpdateRoutes()`. -/
  | goSelfUpdateRoutes
  /-- The statement `go listenAndServeOrFatal(pubAddr, rout, rTimeout, wTimeout)`. -/
  | goListenPublic (addr : String) (rTimeout wTimeout : Duration)
  /-- The call `newAPIHandler(rout)` and the error it returned. -/
  | newAPIHandler (err : Option String)
  /-- The call `listenAndServeOrFatal(apiAddr, api, rTimeout, wTimeout)`. -/
  | listenAPI (addr : String) (rTimeout wTimeout : Duration)
  deriving DecidableEq, Repr

/-- How the main goroutine ends. -/
inductive Outcome where
  /-- Call of `os.Exit(code)`. -/
  | exit (code : Nat)
  /-- Call of `log.Fatal(err)`: the error is logged and the process exits with status 1. -/
  | fatal (err : String)
  /-- The final `ListenAndServe` never returns: the process keeps serving. -/
  | serving
  deriving DecidableEq, Repr

/-- The process ends with a non-zero exit status: `log.Fatal` (status 1) or `os.Exit` with a
non-zero code. -/
def Outcome.isFailure : Outcome → Bool
  | .exit code => decide (code ≠ 0)
  | .fatal _ => true
  | .serving => false

/-- The result of `flag.Parse()` for the single flag `-version` under `flag.ExitOnError`:
either the flags parse, giving the value of `*returnVersion`, or parsing fails (unknown flag,
bad value, `-h`) and `flag.Usage`, which is `usage`, runs. -/
inductive FlagParse where
  | parsed (returnVersion : Bool)
  | failed
  deriving DecidableEq, Repr

/-- Everything outside `main.go` that a run of `main` depends on. -/
structure World where
  /-- The process environment. -/
  env : Env
  /-- The outcome of `flag.Parse()` on the command line. -/
  flagParse : FlagParse
  /-- Value of `os.Args[0]`. -/
  progName : String
  /-- Value of `versionInfo()`. -/
  versionInfo : String
  /-- Go `time.ParseDuration`: the duration, or the error. -/
  timeParseDuration : String → Except String Duration
  /-- Value of `runtime.GOMAXPROCS(0)`. -/
  gomaxprocs : Nat
  /-- The error `NewRouter` returns for the given arguments (`none` is nil). -/
  newRouter : NewRouterArgs → Option String
  /-- The error `newAPIHandler(rout)` returns (`none` is nil). -/
  newAPIHandler : Option String
  /-- The error with which the API server's `ListenAndServe` returns; `none` when it never
  returns. -/
  apiListenAndServe : Option String

/-- A value returned, or the process ended by `log.Fatal`. -/
inductive OrFatal (α : Type) where
  | ret (a : α)
  | fatal (err : String)
  deriving DecidableEq, Repr

/-- Function `parseDurationOrFatal` (main.go 91-97), over the given `time.ParseDuration`. -/
def parseDurationOrFatal (timeParseDuration : String → Except String Duration) (s : String) :
    OrFatal Duration :=
  match timeParseDuration s with
  | .error err => .fatal err
  | .ok d => .ret d

/-- Function `logInfo` (main.go 69-71). -/
def logInfo (msg : List LogArg) : Event := .log msg

/-- Function `logWarn` (main.go 65-67). -/
def logWarn (msg : List LogArg) : Event := .log msg

/-- The actions performed and the way the main goroutine ends. -/
structure Run where
  trace : List Event
  outcome : Outcome
  deriving DecidableEq, Repr

/-- Performs `evs`, then continues as `r`. -/
def Run.after (evs : List Event) (r : Run) : Run :=
  ⟨evs ++ r.trace, r.outcome⟩

/-- Function `listenAndServeOrFatal` (main.go 79-89) as called last in `main`:
`ListenAndServe` either never returns or returns a non-nil error, which is fatal. -/
def listenAndServeOrFatal (result : Option String) : Outcome :=
  match result with
  | some err => .fatal err
  | none => .serving

/-- Function `usage` (main.go 30-54): prints the help text to standard error and exits with
status 2. -/
def usage (versionInfo progName : String) : Run :=
  ⟨[.usageText versionInfo progName], .exit 2⟩

/-- The text `main` prints for `-version`: `fmt.Printf("GOV.UK Router %s\n", versionInfo())`. -/
def versionLine (versionInfo : String) : String :=
  "GOV.UK Router " ++ versionInfo ++ "\n"

/-- The warning `main` logs when it disables TLS verification (main.go 122-123). -/
def tlsWarning : String :=
  "router: Skipping verification of TLS certificates. " ++
    "Do not use this option in a production environment."

/-- Function `main` (main.go 99-141). -/
def main (w : World) : Run :=
  let cfg := packageVars w.env
  match w.flagParse with
  | .failed => usage w.versionInfo w.progName
  | .parsed true => ⟨[.stdout (versionLine w.versionInfo)], .exit 0⟩
  | .parsed false =>
  Run.after [.parseDuration cfg.frontendReadTimeout] <|
  match parseDurationOrFatal w.timeParseDuration cfg.frontendReadTimeout with
  | .fatal err => ⟨[], .fatal err⟩
  | .ret feReadTimeout =>
  Run.after [.parseDuration cfg.frontendWriteTimeout] <|
  match parseDurationOrFatal w.timeParseDuration cfg.frontendWriteTimeout with
  | .fatal err => ⟨[], .fatal err⟩
  | .ret feWriteTimeout =>
  Run.after [.parseDuration cfg.backendConnectTimeout] <|
  match parseDurationOrFatal w.timeParseDuration cfg.backendConnectTimeout with
  | .fatal err => ⟨[], .fatal err⟩
  | .ret beConnectTimeout =>
  Run.after [.parseDuration cfg.backendHeaderTimeout] <|
  match parseDurationOrFatal w.timeParseDuration cfg.backendHeaderTimeout with
  | .fatal err => ⟨[], .fatal err⟩
  | .ret beHeaderTimeout =>
  Run.after [.parseDuration cfg.mongoPollInterval] <|
  match parseDurationOrFatal w.timeParseDuration cfg.mongoPollInterval with
  | .fatal err => ⟨[], .fatal err⟩
  | .ret mgoPollInterval =>
  Run.after
    [ .initMetrics,
      logInfo [.str "router: using frontend read timeout:", .dur feReadTimeout],
      logInfo [.str "router: using frontend write timeout:", .dur feWriteTimeout],
      logInfo [.str ("router: using GOMAXPROCS value of " ++ toString w.gomaxprocs)] ] <|
  Run.after
    (if cfg.tlsSkipVerify then [.setTLSSkipVerify true, logWarn [.str tlsWarning]] else []) <|
  let args : NewRouterArgs :=
    ⟨cfg.mongoURL, cfg.mongoDbName, mgoPollInterval, beConnectTimeout, beHeaderTimeout,
      cfg.errorLogFile⟩
  Run.after [.newRouter args (w.newRouter args)] <|
  match w.newRouter args with
  | some err => ⟨[], .fatal err⟩
  | none =>
  Run.after
    [ .goSelfUpdateRoutes,
      .goListenPublic cfg.pubAddr feReadTimeout feWriteTimeout,
      logInfo [.str ("router: listening for requests on " ++ cfg.pubAddr)],
      .newAPIHandler w.newAPIHandler ] <|
  match w.newAPIHandler with
  | some err => ⟨[], .fatal err⟩
  | none =>
  ⟨[ logInfo [.str ("router: listening for API requests on " ++ cfg.apiAddr)],
     .listenAPI cfg.apiAddr feReadTimeout feWriteTimeout ],
   listenAndServeOrFatal w.apiListenAndServe⟩

/-! ## Observations on a run -/

/-- The event starts one of the router's services: the route self-update loop, the public
listener or the API listener. -/
def Event.startsService : Event → Bool
  | .goSelfUpdateRoutes => true
  | .goListenPublic _ _ _ => true
  | .listenAPI _ _ _ => true
  | _ => false

/-- The event is the start of the public listener. -/
def Event.isListenPublic : Event → Bool
  | .goListenPublic _ _ _ => true
  | _ => false

/-- The event is a call of `NewRouter`. -/
def Event.isNewRouter : Event → Bool
  | .newRouter _ _ => true
  | _ => false

/-- The event is a call of `time.ParseDuration`. -/
def Event.isParseDuration : Event → Bool
  | .parseDuration _ => true
  | _ => false

/-- The event writes `handlers.TLSSkipVerify`. -/
def Event.writesTLSSkipVerify : Event → Bool
  | .setTLSSkipVerify _ => true
  | _ => false

/-- The event is a call of `NewRouter` that returned without error. -/
def Event.isNewRouterOk : Event → Bool
  | .newRouter _ none => true
  | _ => false

/-- The event is reached only after the configuration has been parsed: `initMetrics`, a call
of `NewRouter`, or the start of a service. -/
def Event.pastConfig : Event → Bool
  | .initMetrics => true
  | .newRouter _ _ => true
  | ev => ev.startsService

/-- Scans a trace: true when no event satisfying `q` occurs up to and including the first
event satisfying `p`. -/
def precededBy (p q : Event → Bool) : List Event → Bool
  | [] => true
  | ev :: rest => !q ev && (p ev || precededBy p q rest)

/-- The five duration settings `main` parses, with their effective values, in the order
parsed (main.go 108-112). -/
def durationSettings (cfg : Config) : List String :=
  [ cfg.frontendReadTimeout, cfg.frontendWriteTimeout, cfg.backendConnectTimeout,
    cfg.backendHeaderTimeout, cfg.mongoPollInterval ]

/-- An environment given by a finite list of `NAME=value` bindings; the first binding of a
name counts. -/
def envOf (bindings : List (String × String)) : Env :=
  fun key => bindings.lookup key

/-- A stand-in for `time.ParseDuration` in concrete runs. It agrees with `time.ParseDuration`
on a non-empty string of decimal digits followed by `s` (that many seconds, rejected when it
exceeds the range of a 64-bit count of nanoseconds) and on strings that hold no digit at all
(rejected), and rejects every other string. -/
def parseSeconds (s : String) : Except String Duration :=
  match s.toList.reverse with
  | 's' :: ds =>
    if ds ≠ [] ∧ ds.all Char.isDigit then
      let v := ds.reverse.foldl (fun n c => 10 * n + (c.toNat - '0'.toNat)) 0
      if v ≤ 9223372036 then .ok (Int.ofNat v * 1000000000)
      else .error ("time: invalid duration " ++ s)
    else .error ("time: invalid duration " ++ s)
  | _ => .error ("time: invalid duration " ++ s)

/-- A world for concrete runs: the given environment and flags, `parseSeconds` for
`time.ParseDuration`, and the given results of `NewRouter` and `newAPIHandler`. -/
def sampleWorld (bindings : List (String × String)) (flags : FlagParse)
    (newRouterErr newAPIHandlerErr : Option String) : World where
  env := envOf bindings
  flagParse := flags
  progName := "router"
  versionInfo := "v1"
  timeParseDuration := parseSeconds
  gomaxprocs := 4
  newRouter := fun _ => newRouterErr
  newAPIHandler := newAPIHandlerErr
  apiListenAndServe := none

/-!
# Part 2: routing engine

The path trie, the table builder and the refresher are not part of `main.go`; `main` only
reaches them through `NewRouter` and `SelfUpdateRoutes`.  The definitions below follow the
written specification of the routing engine (data model, path trie, table builder, refresher).
-/

/-- Modelled from the spec: the `match_kind` of a route (the trie and route records are not in
`main.go`). `exact` matches only the full path, `pfx` (a prefix route) matches the path and
every path below it. -/
inductive MatchKind where
  | exact
  | pfx
  deriving DecidableEq, Repr

/-- Modelled from the spec: the `action_kind` of a route (route records are not in `main.go`). -/
inductive ActionKind where
  | backend
  | redirect
  | gone
  deriving DecidableEq, Repr

/-- Modelled from the spec: a Backend record (not in `main.go`): an identifier and the base
upstream address. -/
structure Backend where
  id : String
  url : String
  deriving DecidableEq, Repr

/-- Modelled from the spec: a Route record (not in `main.go`), with the fields of the data
model. -/
structure Route where
  incoming_path : String
  match_kind : MatchKind
  action_kind : ActionKind
  backend_id : Option String
  redirect_target : Option String
  redirect_preserve_path_suffix : Bool
  redirect_is_permanent : Bool
  disabled : Bool
  deriving DecidableEq, Repr

/-- Modelled from the spec: a node of the path trie (not in `main.go`). A node may carry an
exact route and a prefix route, and has one child per path segment. -/
inductive Node where
  | mk (exact : Option Route) (pfx : Option Route) (children : List (String × Node))

/-- The exact route a node carries. -/
def Node.exact : Node → Option Route
  | .mk e _ _ => e

/-- The prefix route a node carries. -/
def Node.pfx : Node → Option Route
  | .mk _ p _ => p

/-- The children of a node, by segment. -/
def Node.children : Node → List (String × Node)
  | .mk _ _ cs => cs

/-- A node with no route and no child. -/
def Node.empty : Node := .mk none none []

/-- The child of a node for a segment, if there is one. -/
def Node.child (n : Node) (seg : String) : Option Node :=
  n.children.lookup seg

/-- Modelled from the spec: path splitting (not in `main.go`): splits a list of characters at
every `/`. -/
def splitSlash : List Char → List (List Char)
  | [] => [[]]
  | c :: cs =>
    if c = '/' then [] :: splitSlash cs
    else
      match splitSlash cs with
      | [] => [[c]]
      | seg :: rest => (c :: seg) :: rest

/-- Modelled from the spec: path normalisation (not in `main.go`): drops the last element of a
list of segments when it is empty. -/
def dropTrailingEmpty : List String → List String
  | [] => []
  | [s] => if s = "" then [] else [s]
  | s :: t :: rest => s :: dropTrailingEmpty (t :: rest)

/-- Modelled from the spec: the segments of a path (path normalisation is not in `main.go`):
the path split on `/`, ignoring the empty leading segment and a possible empty trailing
segment. The root path `/` has zero segments. -/
def segments (path : String) : List String :=
  let parts := (splitSlash path.toList).map String.mk
  let parts := match parts with
    | "" :: rest => rest
    | ps => ps
  dropTrailingEmpty parts

/-- Modelled from the spec: the lookup walk of the path trie (not in `main.go`). At each node
visited a prefix route it carries becomes the best fallback, overwriting a shallower one. When
the path is consumed, the exact route of the terminal node wins; otherwise, or when there is no
child for the next segment, the best fallback is the result. -/
def lookupFrom : List String → Node → Option Route → Option Route
  | [], n, best =>
    let best := match n.pfx with
      | some r => some r
      | none => best
    match n.exact with
    | some r => some r
    | none => best
  | seg :: rest, n, best =>
    let best := match n.pfx with
      | some r => some r
      | none => best
    match n.child seg with
    | none => best
    | some c => lookupFrom rest c best

/-- Modelled from the spec: the children map of a trie node (not in `main.go`): binds a segment
to a child, replacing an existing binding. -/
def setChild : List (String × Node) → String → Node → List (String × Node)
  | [], seg, c => [(seg, c)]
  | (s, n) :: rest, seg, c =>
    if seg = s then (seg, c) :: rest else (s, n) :: setChild rest seg c

/-- Modelled from the spec: slot assignment of the builder (not in `main.go`): sets the slot of
a node dictated by the `match_kind` of the route, overwriting what it held. -/
def Node.setSlot (n : Node) (r : Route) : Node :=
  match r.match_kind with
  | .exact => .mk (some r) n.pfx n.children
  | .pfx => .mk n.exact (some r) n.children

/-- Modelled from the spec: trie insertion of the builder (not in `main.go`): inserts a route at
the node for the given segment path, creating the nodes on the way. -/
def insertAt : List String → Route → Node → Node
  | [], r, n => n.setSlot r
  | seg :: rest, r, n =>
    let c := match n.child seg with
      | some c => c
      | none => Node.empty
    .mk n.exact n.pfx (setChild n.children seg (insertAt rest r c))

/-- Modelled from the spec: trie insertion of the builder (not in `main.go`): inserts a route at
the node for the segments of its `incoming_path`. -/
def Node.insert (n : Node) (r : Route) : Node :=
  insertAt (segments r.incoming_path) r n

/-- Modelled from the spec: a Route Table snapshot (not in `main.go`): the trie and the backend
registry. -/
structure RouteTable where
  trie : Node
  backends : List (String × Backend)

/-- Modelled from the spec: lookup of a request path in a table (not in `main.go`): normalise
the path, then walk the trie from the root with no fallback recorded. -/
def RouteTable.lookup (t : RouteTable) (path : String) : Option Route :=
  lookupFrom (segments path) t.trie none

/-- The node of the trie for a segment path, if the trie has one. -/
def nodeAt : List String → Node → Option Node
  | [], n => some n
  | seg :: rest, n =>
    match n.child seg with
    | none => none
    | some c => nodeAt rest c

/-- The route held in the slot of the given kind at the node for a segment path; `none` when
the trie has no such node or the slot is empty. -/
def slotAt (kind : MatchKind) (segs : List String) (n : Node) : Option Route :=
  match nodeAt segs n with
  | some m =>
    (match kind with
     | .exact => m.exact
     | .pfx => m.pfx)
  | none => none

/-- The exact route the table holds for a path: the exact slot of the node for the path. -/
def RouteTable.exactRouteAt (t : RouteTable) (path : String) : Option Route :=
  slotAt .exact (segments path) t.trie

/-- The prefix route the table holds at a path: the prefix slot of the node for the path. -/
def RouteTable.pfxRouteAt (t : RouteTable) (path : String) : Option Route :=
  slotAt .pfx (segments path) t.trie

/-- Modelled from the spec: the raw records read from the external store (the store interface is
not in `main.go`). -/
structure Records where
  backends : List Backend
  routes : List Route

/-- Modelled from the spec: the backend registry of the builder (not in `main.go`): the backends
whose URL parses, by identifier. Whether a URL parses as an absolute `http` or `https` URL is
given by `urlParses`. -/
def buildBackends (urlParses : String → Bool) (bs : List Backend) : List (String × Backend) :=
  (bs.filter (fun b => urlParses b.url)).map (fun b => (b.id, b))

/-- Modelled from the spec: record validation of the builder (not in `main.go`): a route record
survives the build when it is not disabled and, for a `backend` action, its `backend_id`
resolves in the registry. -/
def Route.survives (registry : List (String × Backend)) (r : Route) : Bool :=
  !r.disabled &&
    (match r.action_kind with
     | .backend =>
       match r.backend_id with
       | some id => (registry.lookup id).isSome
       | none => false
     | _ => true)

/-- Modelled from the spec: the table builder (not in `main.go`). The registry is built first;
each surviving route is inserted in record order, a later record overwriting an occupied slot. -/
def buildTable (urlParses : String → Bool) (recs : Records) : RouteTable :=
  let registry := buildBackends urlParses recs.backends
  { trie := (recs.routes.filter (Route.survives registry)).foldl Node.insert Node.empty
    backends := registry }

/-- Modelled from the spec: the progress of the build in flight (not in `main.go`). The
builder reads the backend records first and then the route records; what it has built so far
(the registry, and the trie of the routes inserted so far) is its own working state. -/
inductive BuildPhase where
  | idle
  | loadingBackends
  | loadingRoutes (registry : List (String × Backend)) (trie : Node)

/-- Modelled from the spec: the state of the refresher (not in `main.go`): the published table,
which is the one request dispatch reads, the build in flight, and the failures logged. -/
structure Refresher where
  published : RouteTable
  phase : BuildPhase
  logged : List String

/-- Modelled from the spec: what can happen to the refresher (not in `main.go`): a timer tick
or reload trigger, and the outcomes of its reads of the external store. The store delivers the
backend records, then the route records one by one, and can report that it is unreachable
instead of the backend records or at any point of the route records. -/
inductive RefreshStep where
  | trigger
  | backendsRead (bs : List Backend)
  | backendsFailed (err : String)
  | routeRead (r : Route)
  | routesDone
  | routesFailed (err : String)
  deriving DecidableEq, Repr

/-- Modelled from the spec: one step of the refresher (not in `main.go`). A trigger starts a
build when none is in flight and is otherwise coalesced into a no-op. The build makes the
registry from the backend records, then inserts each surviving route record into a new trie.
When the route records are complete the built table replaces the published one. When the store
is unreachable the failure is logged and the build is dropped. A store outcome that no read in
flight is waiting for changes nothing. -/
def Refresher.step (urlParses : String → Bool) (st : Refresher) (s : RefreshStep) : Refresher :=
  match s, st.phase with
  | .trigger, .idle => { st with phase := .loadingBackends }
  | .backendsRead bs, .loadingBackends =>
    { st with phase := .loadingRoutes (buildBackends urlParses bs) Node.empty }
  | .backendsFailed err, .loadingBackends =>
    { st with phase := .idle, logged := st.logged ++ [err] }
  | .routeRead r, .loadingRoutes registry trie =>
    { st with phase :=
        .loadingRoutes registry (if r.survives registry then trie.insert r else trie) }
  | .routesDone, .loadingRoutes registry trie =>
    { st with published := { trie := trie, backends := registry }, phase := .idle }
  | .routesFailed err, .loadingRoutes _ _ =>
    { st with phase := .idle, logged := st.logged ++ [err] }
  | _, _ => st

/-- The refresher after a sequence of steps. -/
def Refresher.run (urlParses : String → Bool) (st : Refresher) (steps : List RefreshStep) :
    Refresher :=
  steps.foldl (Refresher.step urlParses) st

/-- The table under construction by the build in flight, as far as it has been built; `none`
when no route record has been asked for yet. -/
def Refresher.building (st : Refresher) : Option RouteTable :=
  match st.phase with
  | .loadingRoutes registry trie => some { trie := trie, backends := registry }
  | _ => none

/-- The steps of a refresh in which the store becomes unreachable after the backend records
and the given route records have been read. -/
def failedRefresh (bs : List Backend) (rs : List Route) (err : String) : List RefreshStep :=
  .trigger :: .backendsRead bs :: (rs.map .routeRead ++ [.routesFailed err])

/-- The steps of a refresh in which all records are read. -/
def completedRefresh (bs : List Backend) (rs : List Route) : List RefreshStep :=
  .trigger :: .backendsRead bs :: (rs.map .routeRead ++ [.routesDone])

/-- A route record with the given path and kind and a `gone` action. -/
def goneRoute (path : String) (kind : MatchKind) : Route :=
  { incoming_path := path, match_kind := kind, action_kind := .gone, backend_id := none,
    redirect_target := none, redirect_preserve_path_suffix := false,
    redirect_is_permanent := false, disabled := false }

/-- A route record with the given path and kind that proxies to the named backend. -/
def backendRoute (path : String) (kind : MatchKind) (backend : String) : Route :=
  { incoming_path := path, match_kind := kind, action_kind := .backend,
    backend_id := some backend, redirect_target := none,
    redirect_preserve_path_suffix := false, redirect_is_permanent := false, disabled := false }

/-- A permanent-or-temporary redirect route record with the given path, kind and target. -/
def redirectRoute (path : String) (kind : MatchKind) (target : String) (permanent : Bool) :
    Route :=
  { incoming_path := path, match_kind := kind, action_kind := .redirect, backend_id := none,
    redirect_target := some target, redirect_preserve_path_suffix := false,
    redirect_is_permanent := permanent, disabled := false }

/-- A check for concrete builds: the URL starts with `http://` or `https://`. -/
def httpURL (url : String) : Bool :=
  "http://".toList.isPrefixOf url.toList || "https://".toList.isPrefixOf url.toList

/-- A table with a prefix route at `/foo`, an exact and a prefix route at `/foo/bar`, and a
prefix route below. -/
def overlappingTable : RouteTable :=
  buildTable httpURL
    ⟨[⟨"svc-a", "http://svc-a.internal"⟩],
     [ backendRoute "/foo" .pfx "svc-a",
       redirectRoute "/foo/bar" .exact "/baz" true,
       goneRoute "/foo/bar" .pfx,
       goneRoute "/foo/bar/deep" .pfx ]⟩

/-- A table with prefix routes at `/a` and `/a/b`, an exact route at `/a/b/c` and a prefix
route at `/a/x`. -/
def shadowedTable : RouteTable :=
  buildTable httpURL
    ⟨[], [ goneRoute "/a" .pfx, goneRoute "/a/b" .pfx, goneRoute "/a/b/c" .exact,
           goneRoute "/a/x" .pfx ]⟩

/-- A table with prefix routes at `/a` and `/a/b` and an unrelated exact route below `/a/b/c`. -/
def nestedTable : RouteTable :=
  buildTable httpURL
    ⟨[], [ goneRoute "/a" .pfx, goneRoute "/a/b" .pfx, goneRoute "/a/b/c/d" .exact ]⟩

/-- A refresher with `overlappingTable` published and no build in flight. -/
def servingRefresher : Refresher :=
  { published := overlappingTable, phase := .idle, logged := [] }

/-- The route records read before the store becomes unreachable in the sample failed refresh. -/
def partialRoutes : List Route :=
  [goneRoute "/a" .pfx, goneRoute "/a/b" .pfx]

end Router

/-! # Theorems -/

namespace Router

/-! ## Supporting lemmas -/

theorem parseDurationOrFatal_eq_ret (p : String → Except String Duration) (s : String)
    (d : Duration) : parseDurationOrFatal p s = .ret d ↔ p s = .ok d := by
  unfold parseDurationOrFatal
  split <;> simp_all

theorem parseDurationOrFatal_eq_fatal (p : String → Except String Duration) (s : String)
    (err : String) : parseDurationOrFatal p s = .fatal err ↔ p s = .error err := by
  unfold parseDurationOrFatal
  split <;> simp_all

theorem precededBy_sound (p q : Event → Bool) :
    ∀ (l pre : List Event) (ev : Event) (post : List Event),
      precededBy p q l = true → l = pre ++ ev :: post → q ev = true →
      ∃ x ∈ pre, p x = true := by
  intro l
  induction l with
  | nil => intro pre ev post _ h; simp at h
  | cons a l ih =>
    intro pre ev post hs hl hq
    cases pre with
    | nil =>
      simp only [List.nil_append, List.cons.injEq] at hl
      obtain ⟨rfl, -⟩ := hl
      simp [precededBy, hq] at hs
    | cons b pre =>
      simp only [List.cons_append, List.cons.injEq] at hl
      obtain ⟨rfl, rfl⟩ := hl
      simp only [precededBy, Bool.or_eq_true, Bool.and_eq_true, Bool.not_eq_true'] at hs
      rcases hs with ⟨-, hp | hrest⟩
      · exact ⟨a, List.mem_cons_self _ _, hp⟩
      · obtain ⟨x, hx, hpx⟩ := ih pre ev post hrest rfl hq
        exact ⟨x, List.mem_cons_of_mem _ hx, hpx⟩

theorem main_newRouter_event (w : World) (args : NewRouterArgs) (err : Option String)
    (h : Event.newRouter args err ∈ (main w).trace) : w.newRouter args = err := by
  revert h
  unfold main
  simp only
  split
  · simp [usage]
  · simp
  · simp only [Run.after]
    repeat' split
    all_goals simp_all [logInfo, logWarn]

theorem main_listenPublic_preceded (w : World) :
    precededBy Event.isNewRouterOk Event.isListenPublic (main w).trace = true := by
  unfold main
  simp only
  split
  · simp [usage, precededBy, Event.isListenPublic]
  · simp [precededBy, Event.isListenPublic]
  · simp only [Run.after]
    repeat' split
    all_goals
      simp_all [logInfo, logWarn, precededBy, Event.isListenPublic, Event.isNewRouterOk]

theorem isNewRouterOk_iff (ev : Event) :
    ev.isNewRouterOk = true ↔ ∃ args, ev = .newRouter args none := by
  cases ev <;> simp [Event.isNewRouterOk]
  rename_i args err
  cases err <;> simp

theorem main_flag_failure (w : World) (hflags : w.flagParse = .failed) :
    main w = ⟨[.usageText w.versionInfo w.progName], .exit 2⟩ := by
  simp [main, hflags, usage]

/-! ## Claims about `main.go` -/

/-- C1: for every outcome of `NewRouter`: when `NewRouter` returns an error, `main` ends in
`log.Fatal` with that error and starts neither `SelfUpdateRoutes`, the public listener nor the
API listener; and wherever the public listener is started in a run, a call of `NewRouter` that
returned without error comes earlier in the run. -/
theorem main_newRouter_error_is_fatal (w : World) :
    (∀ args err, Event.newRouter args (some err) ∈ (main w).trace →
      w.newRouter args = some err ∧ (main w).outcome = .fatal err ∧
        ∀ ev ∈ (main w).trace, ev.startsService = false) ∧
    (∀ pre ev post, (main w).trace = pre ++ ev :: post → ev.isListenPublic = true →
      ∃ args, Event.newRouter args none ∈ pre ∧ w.newRouter args = none) := by
  constructor
  · intro args err
    unfold main
    simp only
    split
    · simp [usage]
    · simp
    · simp only [Run.after]
      repeat' split
      all_goals simp_all [logInfo, logWarn, Event.startsService]
  · intro pre ev post htrace hev
    obtain ⟨x, hx, hp⟩ :=
      precededBy_sound _ _ _ pre ev post (main_listenPublic_preceded w) htrace hev
    obtain ⟨args, rfl⟩ := (isNewRouterOk_iff x).1 hp
    refine ⟨args, hx, main_newRouter_event w args none ?_⟩
    rw [htrace]
    exact List.mem_append_left _ hx

/-- C1 at a concrete run: default environment, no `-version`, `NewRouter` failing. -/
theorem main_newRouter_error_is_fatal_witness :
    (main (sampleWorld [] (.parsed false) (some "no reachable servers") none)).outcome
        = .fatal "no reachable servers" ∧
      ∀ ev ∈ (main (sampleWorld [] (.parsed false) (some "no reachable servers") none)).trace,
        ev.startsService = false :=
  ((main_newRouter_error_is_fatal
      (sampleWorld [] (.parsed false) (some "no reachable servers") none)).1
    ⟨"127.0.0.1", "router", 2000000000, 1000000000, 20000000000, "STDERR"⟩
    "no reachable servers" (by decide)).2

/-- C2: in every run of `main` without `-version` in which the effective value of at least one
of the five duration settings is rejected by `time.ParseDuration`, the process ends with a
non-zero exit status and `initMetrics`, `NewRouter`, `SelfUpdateRoutes` and both listeners are
never reached: when the flags parse, `main` ends in `log.Fatal` with the error of
`time.ParseDuration` on one of the settings; when the command line does not parse, `usage`
exits with status 2 before any setting is read. Conversely `parseDurationOrFatal s` returns
`d` exactly when `time.ParseDuration s` succeeds with `d`. -/
theorem main_unparseable_duration_is_fatal (w : World)
    (hflags : w.flagParse ≠ .parsed true)
    (hbad : ∃ s ∈ durationSettings (packageVars w.env), ∃ err,
      w.timeParseDuration s = .error err) :
    (main w).outcome.isFailure = true ∧
      (w.flagParse = .parsed false →
        ∃ s ∈ durationSettings (packageVars w.env), ∃ err,
          w.timeParseDuration s = .error err ∧ (main w).outcome = .fatal err) ∧
      (w.flagParse = .failed → (main w).outcome = .exit 2) ∧
      (∀ ev ∈ (main w).trace, ev.pastConfig = false) ∧
      (∀ (p : String → Except String Duration) (s : String) (d : Duration),
        parseDurationOrFatal p s = .ret d ↔ p s = .ok d) := by
  have hfatal : w.flagParse = .parsed false →
      ∃ s ∈ durationSettings (packageVars w.env), ∃ err,
        w.timeParseDuration s = .error err ∧ (main w).outcome = .fatal err := by
    intro hp
    unfold main
    simp only [hp, Run.after]
    repeat' split
    all_goals
      simp_all [parseDurationOrFatal_eq_ret, parseDurationOrFatal_eq_fatal, durationSettings]
  have hexit : w.flagParse = .failed → (main w).outcome = .exit 2 := by
    intro hf
    simp [main, hf, usage]
  refine ⟨?_, hfatal, hexit, ?_, parseDurationOrFatal_eq_ret⟩
  · cases hw : w.flagParse with
    | failed => simp [hexit hw, Outcome.isFailure]
    | parsed v =>
      cases v with
      | true => exact absurd hw hflags
      | false =>
        obtain ⟨s, -, err, -, hout⟩ := hfatal hw
        simp [hout, Outcome.isFailure]
  · cases hw : w.flagParse with
    | failed => simp [main, hw, usage, Event.pastConfig, Event.startsService]
    | parsed v =>
      cases v with
      | true => exact absurd hw hflags
      | false =>
        unfold main
        simp only [hw, Run.after]
        repeat' split
        all_goals
          simp_all [parseDurationOrFatal_eq_ret, parseDurationOrFatal_eq_fatal,
            durationSettings, Event.pastConfig, Event.startsService]

/-- C2 at a concrete run: `ROUTER_BACKEND_HEADER_TIMEOUT=soon` is not a duration. -/
theorem main_unparseable_duration_is_fatal_witness :
    (main (sampleWorld [("ROUTER_BACKEND_HEADER_TIMEOUT", "soon")]
        (.parsed false) none none)).outcome.isFailure = true ∧
      (∃ s ∈ durationSettings
          (packageVars (sampleWorld [("ROUTER_BACKEND_HEADER_TIMEOUT", "soon")]
            (.parsed false) none none).env),
        ∃ err, parseSeconds s = .error err ∧
          (main (sampleWorld [("ROUTER_BACKEND_HEADER_TIMEOUT", "soon")]
            (.parsed false) none none)).outcome = .fatal err) ∧
      (∀ ev ∈ (main (sampleWorld [("ROUTER_BACKEND_HEADER_TIMEOUT", "soon")]
          (.parsed false) none none)).trace, ev.pastConfig = false) :=
  have h := main_unparseable_duration_is_fatal
    (sampleWorld [("ROUTER_BACKEND_HEADER_TIMEOUT", "soon")] (.parsed false) none none)
    (by decide) ⟨"soon", by decide, "time: invalid duration soon", rfl⟩
  ⟨h.1, h.2.1 rfl, h.2.2.2.1⟩

/-- C8: when `-version` is given (`*returnVersion` is true), whatever the environment and
whatever `time.ParseDuration` accepts, `main` prints `GOV.UK Router <versionInfo()>` and a
newline and exits with status 0, and that is all it does: it parses no duration setting,
does not construct the router and starts no listener. -/
theorem main_version_flag (w : World) (hflags : w.flagParse = .parsed true) :
    main w = ⟨[.stdout ("GOV.UK Router " ++ w.versionInfo ++ "\n")], .exit 0⟩ ∧
      ∀ ev ∈ (main w).trace,
        ev.isParseDuration = false ∧ ev.isNewRouter = false ∧ ev.startsService = false := by
  have hmain : main w = ⟨[.stdout ("GOV.UK Router " ++ w.versionInfo ++ "\n")], .exit 0⟩ := by
    simp [main, hflags, versionLine]
  refine ⟨hmain, ?_⟩
  rw [hmain]
  simp [Event.isParseDuration, Event.isNewRouter, Event.startsService]

/-- C8 at a concrete run: `-version` with every duration setting unparseable. -/
theorem main_version_flag_witness :
    main (sampleWorld
        [ ("ROUTER_FRONTEND_READ_TIMEOUT", "x"), ("ROUTER_FRONTEND_WRITE_TIMEOUT", "x"),
          ("ROUTER_BACKEND_CONNECT_TIMEOUT", "x"), ("ROUTER_BACKEND_HEADER_TIMEOUT", "x"),
          ("ROUTER_MONGO_POLL_INTERVAL", "x") ] (.parsed true) none none)
      = ⟨[.stdout "GOV.UK Router v1\n"], .exit 0⟩ :=
  (main_version_flag (sampleWorld
        [ ("ROUTER_FRONTEND_READ_TIMEOUT", "x"), ("ROUTER_FRONTEND_WRITE_TIMEOUT", "x"),
          ("ROUTER_BACKEND_CONNECT_TIMEOUT", "x"), ("ROUTER_BACKEND_HEADER_TIMEOUT", "x"),
          ("ROUTER_MONGO_POLL_INTERVAL", "x") ] (.parsed true) none none) rfl).1

/-- C9: for every key and default, `getenvDefault key defaultVal` is the environment's value
for `key` when that value is a non-empty string and `defaultVal` otherwise; an environment in
which `key` is set to the empty string gives the same result as one in which it is unset; and
the result is non-empty whenever `defaultVal` is non-empty. -/
theorem getenvDefault_spec (env : Env) (key defaultVal : String) :
    (∀ v, env key = some v → v ≠ "" → getenvDefault env key defaultVal = v) ∧
      (env key = none ∨ env key = some "" → getenvDefault env key defaultVal = defaultVal) ∧
      (∀ env2 : Env, env key = some "" → env2 key = none →
        getenvDefault env key defaultVal = getenvDefault env2 key defaultVal) ∧
      (defaultVal ≠ "" → getenvDefault env key defaultVal ≠ "") := by
  refine ⟨?_, ?_, ?_, ?_⟩
  · intro v hv hne
    simp [getenvDefault, osGetenv, hv, hne]
  · rintro (h | h) <;> simp [getenvDefault, osGetenv, h]
  · intro env2 h1 h2
    simp [getenvDefault, osGetenv, h1, h2]
  · intro hd
    unfold getenvDefault
    simp only
    split
    · exact hd
    · assumption

/-- C9 at concrete environments: a set value is returned, an empty one gives the default. -/
theorem getenvDefault_spec_witness :
    getenvDefault (envOf [("ROUTER_PUBADDR", ":9000")]) "ROUTER_PUBADDR" ":8080" = ":9000" ∧
      getenvDefault (envOf [("ROUTER_PUBADDR", "")]) "ROUTER_PUBADDR" ":8080" = ":8080" ∧
      getenvDefault (envOf [("ROUTER_PUBADDR", "")]) "ROUTER_PUBADDR" ":8080" ≠ "" :=
  ⟨(getenvDefault_spec (envOf [("ROUTER_PUBADDR", ":9000")]) "ROUTER_PUBADDR" ":8080").1
      ":9000" (by decide) (by decide),
    (getenvDefault_spec (envOf [("ROUTER_PUBADDR", "")]) "ROUTER_PUBADDR" ":8080").2.1
      (Or.inr (by decide)),
    (getenvDefault_spec (envOf [("ROUTER_PUBADDR", "")]) "ROUTER_PUBADDR" ":8080").2.2.2
      (by decide)⟩

/-- C10: the two backend timeouts are independently configurable. (1) In every run without
`-version` in which the flags parse and all five duration settings parse, `main` calls
`NewRouter`. (2) Whenever `main` calls `NewRouter`, the connect-timeout argument is the
duration parsed from the value of `ROUTER_BACKEND_CONNECT_TIMEOUT` when that is set to a
non-empty string and from `1s` when it is unset or empty, and the header-timeout argument
is the duration parsed from the value of `ROUTER_BACKEND_HEADER_TIMEOUT` when that is set to
a non-empty string and from the code's default `20s` when it is unset or empty. (3) For two
runs that both call `NewRouter`, under the same `time.ParseDuration` and otherwise arbitrary
environments, flags and collaborators: if the environments agree on
`ROUTER_BACKEND_CONNECT_TIMEOUT` the connect timeouts passed are equal, and if they agree on
`ROUTER_BACKEND_HEADER_TIMEOUT` the header timeouts passed are equal, whatever the other
backend timeout, the frontend timeouts and the poll interval are. -/
theorem main_backend_timeouts_independent (w1 w2 : World)
    (hparse : w1.timeParseDuration = w2.timeParseDuration) :
    (w1.flagParse = .parsed false →
      (∀ s ∈ durationSettings (packageVars w1.env), ∃ d, w1.timeParseDuration s = .ok d) →
      ∃ args, Event.newRouter args (w1.newRouter args) ∈ (main w1).trace) ∧
    (∀ args1 err1, Event.newRouter args1 err1 ∈ (main w1).trace →
      (∀ v, w1.env "ROUTER_BACKEND_CONNECT_TIMEOUT" = some v → v ≠ "" →
        w1.timeParseDuration v = .ok args1.beConnectTimeout) ∧
      (w1.env "ROUTER_BACKEND_CONNECT_TIMEOUT" = none ∨
          w1.env "ROUTER_BACKEND_CONNECT_TIMEOUT" = some "" →
        w1.timeParseDuration "1s" = .ok args1.beConnectTimeout) ∧
      (∀ v, w1.env "ROUTER_BACKEND_HEADER_TIMEOUT" = some v → v ≠ "" →
        w1.timeParseDuration v = .ok args1.beHeaderTimeout) ∧
      (w1.env "ROUTER_BACKEND_HEADER_TIMEOUT" = none ∨
          w1.env "ROUTER_BACKEND_HEADER_TIMEOUT" = some "" →
        w1.timeParseDuration "20s" = .ok args1.beHeaderTimeout)) ∧
    (∀ args1 err1 args2 err2,
      Event.newRouter args1 err1 ∈ (main w1).trace →
      Event.newRouter args2 err2 ∈ (main w2).trace →
      (osGetenv w1.env "ROUTER_BACKEND_CONNECT_TIMEOUT"
          = osGetenv w2.env "ROUTER_BACKEND_CONNECT_TIMEOUT" →
        args1.beConnectTimeout = args2.beConnectTimeout) ∧
      (osGetenv w1.env "ROUTER_BACKEND_HEADER_TIMEOUT"
          = osGetenv w2.env "ROUTER_BACKEND_HEADER_TIMEOUT" →
        args1.beHeaderTimeout = args2.beHeaderTimeout)) := by
  have key : ∀ (w : World) (args : NewRouterArgs) (err : Option String),
      Event.newRouter args err ∈ (main w).trace →
      w.timeParseDuration
          (if osGetenv w.env "ROUTER_BACKEND_CONNECT_TIMEOUT" = "" then "1s"
            else osGetenv w.env "ROUTER_BACKEND_CONNECT_TIMEOUT")
          = .ok args.beConnectTimeout ∧
        w.timeParseDuration
          (if osGetenv w.env "ROUTER_BACKEND_HEADER_TIMEOUT" = "" then "20s"
            else osGetenv w.env "ROUTER_BACKEND_HEADER_TIMEOUT")
          = .ok args.beHeaderTimeout := by
    intro w args err
    unfold main
    simp only
    split
    · simp [usage]
    · simp
    · simp only [Run.after]
      repeat' split
      all_goals
        simp_all [logInfo, logWarn, parseDurationOrFatal_eq_ret, packageVars, getenvDefault]
  refine ⟨?_, ?_, ?_⟩
  · intro hflags hok
    unfold main
    simp only [hflags, Run.after]
    repeat' split
    all_goals
      simp_all [logInfo, logWarn, parseDurationOrFatal_eq_ret, parseDurationOrFatal_eq_fatal,
        durationSettings]
  · intro args1 err1 h1
    obtain ⟨hc, hh⟩ := key w1 args1 err1 h1
    refine ⟨?_, ?_, ?_, ?_⟩
    · intro v hv hne
      simpa [osGetenv, hv, hne] using hc
    · rintro (h | h) <;> simpa [osGetenv, h] using hc
    · intro v hv hne
      simpa [osGetenv, hv, hne] using hh
    · rintro (h | h) <;> simpa [osGetenv, h] using hh
  · intro args1 err1 args2 err2 h1 h2
    obtain ⟨c1, hd1⟩ := key w1 args1 err1 h1
    obtain ⟨c2, hd2⟩ := key w2 args2 err2 h2
    constructor
    · intro henv
      rw [hparse, henv, c2] at c1
      exact (Except.ok.inj c1).symm
    · intro henv
      rw [hparse, henv, hd2] at hd1
      exact (Except.ok.inj hd1).symm

/-- C10 at two concrete runs with `ROUTER_BACKEND_CONNECT_TIMEOUT=3s` that differ in the header
timeout (`30s` against `5s`), the frontend read timeout and the poll interval: both runs call
`NewRouter`, both pass the connect timeout parsed from `3s`, and each passes the header timeout
parsed from its own setting. -/
theorem main_backend_timeouts_independent_witness :
    ∃ a1 a2,
      Event.newRouter a1 none ∈
          (main (sampleWorld [("ROUTER_BACKEND_CONNECT_TIMEOUT", "3s"),
            ("ROUTER_BACKEND_HEADER_TIMEOUT", "30s")] (.parsed false) none none)).trace ∧
        Event.newRouter a2 none ∈
          (main (sampleWorld [("ROUTER_BACKEND_CONNECT_TIMEOUT", "3s"),
            ("ROUTER_BACKEND_HEADER_TIMEOUT", "5s"), ("ROUTER_FRONTEND_READ_TIMEOUT", "10s"),
            ("ROUTER_MONGO_POLL_INTERVAL", "7s")] (.parsed false) none none)).trace ∧
        a1.beConnectTimeout = a2.beConnectTimeout ∧
        parseSeconds "3s" = .ok a1.beConnectTimeout ∧
        parseSeconds "30s" = .ok a1.beHeaderTimeout ∧
        parseSeconds "5s" = .ok a2.beHeaderTimeout := by
  have T := main_backend_timeouts_independent
    (sampleWorld [("ROUTER_BACKEND_CONNECT_TIMEOUT", "3s"),
      ("ROUTER_BACKEND_HEADER_TIMEOUT", "30s")] (.parsed false) none none)
    (sampleWorld [("ROUTER_BACKEND_CONNECT_TIMEOUT", "3s"),
      ("ROUTER_BACKEND_HEADER_TIMEOUT", "5s"), ("ROUTER_FRONTEND_READ_TIMEOUT", "10s"),
      ("ROUTER_MONGO_POLL_INTERVAL", "7s")] (.parsed false) none none) rfl
  have U := main_backend_timeouts_independent
    (sampleWorld [("ROUTER_BACKEND_CONNECT_TIMEOUT", "3s"),
      ("ROUTER_BACKEND_HEADER_TIMEOUT", "5s"), ("ROUTER_FRONTEND_READ_TIMEOUT", "10s"),
      ("ROUTER_MONGO_POLL_INTERVAL", "7s")] (.parsed false) none none)
    (sampleWorld [("ROUTER_BACKEND_CONNECT_TIMEOUT", "3s"),
      ("ROUTER_BACKEND_HEADER_TIMEOUT", "30s")] (.parsed false) none none) rfl
  have s1 : durationSettings (packageVars (sampleWorld [("ROUTER_BACKEND_CONNECT_TIMEOUT", "3s"),
      ("ROUTER_BACKEND_HEADER_TIMEOUT", "30s")] (.parsed false) none none).env)
      = ["60s", "60s", "3s", "30s", "2s"] := by decide
  have s2 : durationSettings (packageVars (sampleWorld [("ROUTER_BACKEND_CONNECT_TIMEOUT", "3s"),
      ("ROUTER_BACKEND_HEADER_TIMEOUT", "5s"), ("ROUTER_FRONTEND_READ_TIMEOUT", "10s"),
      ("ROUTER_MONGO_POLL_INTERVAL", "7s")] (.parsed false) none none).env)
      = ["10s", "60s", "3s", "5s", "7s"] := by decide
  obtain ⟨a1, h1⟩ := T.1 rfl (by
    rw [s1]
    intro s hs
    simp only [List.mem_cons, List.mem_singleton, List.not_mem_nil, or_false] at hs
    rcases hs with rfl | rfl | rfl | rfl | rfl <;> exact ⟨_, rfl⟩)
  obtain ⟨a2, h2⟩ := U.1 rfl (by
    rw [s2]
    intro s hs
    simp only [List.mem_cons, List.mem_singleton, List.not_mem_nil, or_false] at hs
    rcases hs with rfl | rfl | rfl | rfl | rfl <;> exact ⟨_, rfl⟩)
  exact ⟨a1, a2, h1, h2, (T.2.2 a1 none a2 none h1 h2).1 rfl,
    (T.2.1 a1 none h1).1 "3s" (by decide) (by decide),
    (T.2.1 a1 none h1).2.2.1 "30s" (by decide) (by decide),
    (U.2.1 a2 none h2).2.2.1 "5s" (by decide) (by decide)⟩

/-- C3, as stated, fails: with `ROUTER_TLS_SKIP_VERIFY=1` and `-version`, the variable is set to
a non-empty string and `main` never sets `handlers.TLSSkipVerify`. -/
theorem main_tlsSkipVerify_not_iff :
    osGetenv (sampleWorld [("ROUTER_TLS_SKIP_VERIFY", "1")] (.parsed true) none none).env
        "ROUTER_TLS_SKIP_VERIFY" ≠ "" ∧
      Event.setTLSSkipVerify true ∉
        (main (sampleWorld [("ROUTER_TLS_SKIP_VERIFY", "1")] (.parsed true) none none)).trace := by
  decide

/-- C3, amended: (1) in every run, `main` writes `handlers.TLSSkipVerify` only with the value
true and only if `ROUTER_TLS_SKIP_VERIFY` is set to a non-empty string; (2) in every run
without `-version` in which the flags parse and all five duration settings parse, `main` sets it
to true if and only if `ROUTER_TLS_SKIP_VERIFY` is non-empty; (3) when the variable is unset
or empty `main` never writes it; (4) in every run where `main` sets it to true, the next action
is logging the warning that ends in `Do not use this option in a production environment.`, and
no call of `NewRouter` comes before it. -/
theorem main_tlsSkipVerify (w : World) :
    (∀ b, Event.setTLSSkipVerify b ∈ (main w).trace →
        b = true ∧ osGetenv w.env "ROUTER_TLS_SKIP_VERIFY" ≠ "") ∧
      (w.flagParse = .parsed false →
        (∀ s ∈ durationSettings (packageVars w.env), ∃ d, w.timeParseDuration s = .ok d) →
        (Event.setTLSSkipVerify true ∈ (main w).trace ↔
          osGetenv w.env "ROUTER_TLS_SKIP_VERIFY" ≠ "")) ∧
      (w.env "ROUTER_TLS_SKIP_VERIFY" = none ∨ w.env "ROUTER_TLS_SKIP_VERIFY" = some "" →
        ∀ ev ∈ (main w).trace, ev.writesTLSSkipVerify = false) ∧
      (Event.setTLSSkipVerify true ∈ (main w).trace →
        ∃ pre post,
          (main w).trace
              = pre ++ Event.setTLSSkipVerify true :: logWarn [.str tlsWarning] :: post ∧
            (∀ ev ∈ pre, ev.isNewRouter = false) ∧
            ∃ head, tlsWarning
              = head ++ "Do not use this option in a production environment.") := by
  refine ⟨?_, ?_, ?_, ?_⟩
  · intro b
    unfold main
    simp only
    split
    · simp [usage]
    · simp
    · simp only [Run.after]
      repeat' split
      all_goals simp_all [logInfo, logWarn, packageVars]
  · intro hflags hok
    unfold main
    simp only [hflags, Run.after]
    repeat' split
    all_goals
      simp_all [logInfo, logWarn, packageVars, parseDurationOrFatal_eq_ret,
        parseDurationOrFatal_eq_fatal, durationSettings]
  · intro hunset
    have hget : osGetenv w.env "ROUTER_TLS_SKIP_VERIFY" = "" := by
      rcases hunset with h | h <;> simp [osGetenv, h]
    unfold main
    simp only
    split
    · simp [usage, Event.writesTLSSkipVerify]
    · simp [Event.writesTLSSkipVerify]
    · simp only [Run.after]
      repeat' split
      all_goals simp_all [logInfo, logWarn, packageVars, Event.writesTLSSkipVerify]
  · intro hset
    refine ⟨(main w).trace.takeWhile (fun ev => !ev.writesTLSSkipVerify),
      ((main w).trace.dropWhile (fun ev => !ev.writesTLSSkipVerify)).drop 2, ?_, ?_,
      ⟨"router: Skipping verification of TLS certificates. ", rfl⟩⟩
    · revert hset
      unfold main
      simp only
      split
      · simp [usage]
      · simp
      · simp only [Run.after]
        repeat' split
        all_goals
          simp_all [logInfo, logWarn, Event.writesTLSSkipVerify, List.takeWhile, List.dropWhile]
    · intro ev hev
      revert hev hset
      unfold main
      simp only
      split
      · simp [usage]
      · simp
      · simp only [Run.after]
        repeat' split
        all_goals
          simp_all [logInfo, logWarn, Event.writesTLSSkipVerify, List.takeWhile,
            List.dropWhile, Event.isNewRouter]
        all_goals
          rintro (h | h | h | h | h | h | h | h | h) <;> simp [h, Event.isNewRouter]

/-- C3 (amended) at a concrete run: `ROUTER_TLS_SKIP_VERIFY=yes`, no `-version`, default
durations: the flag is set and the warning follows at once, before `NewRouter`. -/
theorem main_tlsSkipVerify_witness :
    ∃ pre post,
      (main (sampleWorld [("ROUTER_TLS_SKIP_VERIFY", "yes")] (.parsed false) none none)).trace
          = pre ++ Event.setTLSSkipVerify true :: logWarn [.str tlsWarning] :: post ∧
        (∀ ev ∈ pre, ev.isNewRouter = false) ∧
        ∃ head, tlsWarning = head ++ "Do not use this option in a production environment." :=
  (main_tlsSkipVerify
    (sampleWorld [("ROUTER_TLS_SKIP_VERIFY", "yes")] (.parsed false) none none)).2.2.2
    (by decide)

/-- C4: with no variable set, nine of the ten values the program uses equal the default the
usage text states, and the tenth does not: the usage text states
`ROUTER_BACKEND_HEADER_TIMEOUT=15s` while the program uses `20s`, and a run of `main` in that
environment passes a header timeout of 20 seconds to `NewRouter`. -/
theorem usage_defaults_vs_packageVars :
    (usageDefault "ROUTER_BACKEND_HEADER_TIMEOUT" = some "15s" ∧
      (packageVars (envOf [])).backendHeaderTimeout = "20s") ∧
    usageDefault "ROUTER_PUBADDR" = some (packageVars (envOf [])).pubAddr ∧
    usageDefault "ROUTER_APIADDR" = some (packageVars (envOf [])).apiAddr ∧
    usageDefault "ROUTER_MONGO_URL" = some (packageVars (envOf [])).mongoURL ∧
    usageDefault "ROUTER_MONGO_DB" = some (packageVars (envOf [])).mongoDbName ∧
    usageDefault "ROUTER_MONGO_POLL_INTERVAL" = some (packageVars (envOf [])).mongoPollInterval ∧
    usageDefault "ROUTER_ERROR_LOG" = some (packageVars (envOf [])).errorLogFile ∧
    usageDefault "ROUTER_BACKEND_CONNECT_TIMEOUT"
      = some (packageVars (envOf [])).backendConnectTimeout ∧
    usageDefault "ROUTER_FRONTEND_READ_TIMEOUT"
      = some (packageVars (envOf [])).frontendReadTimeout ∧
    usageDefault "ROUTER_FRONTEND_WRITE_TIMEOUT"
      = some (packageVars (envOf [])).frontendWriteTimeout ∧
    Event.newRouter ⟨"127.0.0.1", "router", 2000000000, 1000000000, 20000000000, "STDERR"⟩ none
      ∈ (main (sampleWorld [] (.parsed false) none none)).trace := by
  decide

/-! ## Claims about the routing engine -/

theorem lookupFrom_exact (segs : List String) :
    ∀ (n : Node) (best : Option Route) (r : Route),
      slotAt .exact segs n = some r → lookupFrom segs n best = some r := by
  induction segs with
  | nil =>
    intro n best r h
    simp only [slotAt, nodeAt] at h
    simp [lookupFrom, h]
  | cons seg rest ih =>
    intro n best r h
    simp only [slotAt, nodeAt] at h
    simp only [lookupFrom]
    cases hc : n.child seg with
    | none => simp [hc] at h
    | some c =>
      simp only [hc] at h ⊢
      exact ih c _ r h

theorem lookup_setChild (cs : List (String × Node)) (s s' : String) (c : Node) :
    (setChild cs s c).lookup s' = if s' = s then some c else cs.lookup s' := by
  induction cs with
  | nil =>
    by_cases h : s' = s
    · simp [setChild, List.lookup, h]
    · have hb : (s' == s) = false := by simpa using h
      simp [setChild, List.lookup, h, hb]
  | cons hd tl ih =>
    obtain ⟨k, v⟩ := hd
    simp only [setChild]
    by_cases hk : s = k
    · subst hk
      by_cases h : s' = s
      · simp [List.lookup, h]
      · have hb : (s' == s) = false := by simpa using h
        simp [List.lookup, h, hb]
    · by_cases h' : s' = k
      · subst h'
        have : ¬ s' = s := fun e => hk e.symm
        simp [List.lookup, hk, this]
      · have hb : (s' == k) = false := by simpa using h'
        simp [List.lookup, hk, hb, ih]

theorem child_mk (e p : Option Route) (cs : List (String × Node)) (s : String) :
    (Node.mk e p cs).child s = cs.lookup s := rfl

theorem child_setSlot (n : Node) (r : Route) (s : String) :
    (n.setSlot r).child s = n.child s := by
  unfold Node.setSlot
  cases r.match_kind <;> rfl

theorem nodeAt_empty (segs : List String) (h : segs ≠ []) : nodeAt segs Node.empty = none := by
  cases segs with
  | nil => exact absurd rfl h
  | cons s rest => simp [nodeAt, Node.child, Node.empty, Node.children]

theorem slotAt_empty (kind : MatchKind) (segs : List String) :
    slotAt kind segs Node.empty = none := by
  cases segs with
  | nil => cases kind <;> simp [slotAt, nodeAt, Node.empty, Node.exact, Node.pfx]
  | cons s rest => simp [slotAt, nodeAt_empty]

theorem slotAt_insertAt_same (segs : List String) :
    ∀ (r : Route) (n : Node), slotAt r.match_kind segs (insertAt segs r n) = some r := by
  induction segs with
  | nil =>
    intro r n
    simp only [insertAt, slotAt, nodeAt, Node.setSlot]
    cases h : r.match_kind <;> simp [Node.exact, Node.pfx]
  | cons seg rest ih =>
    intro r n
    have := ih r (match n.child seg with | some c => c | none => Node.empty)
    simp only [slotAt, insertAt, nodeAt, child_mk, lookup_setChild] at this ⊢
    simpa using this

theorem slotAt_insertAt_other (kind : MatchKind) (segs' : List String) :
    ∀ (segs : List String) (r : Route) (n : Node),
      (segs' ≠ segs ∨ r.match_kind ≠ kind) →
      slotAt kind segs (insertAt segs' r n) = slotAt kind segs n := by
  induction segs' with
  | nil =>
    intro segs r n h
    cases segs with
    | nil =>
      have hk : r.match_kind ≠ kind := by
        rcases h with h | h
        · exact absurd rfl h
        · exact h
      simp only [insertAt, slotAt, nodeAt, Node.setSlot]
      cases hr : r.match_kind <;> cases kind <;> simp_all [Node.exact, Node.pfx]
    | cons s rest =>
      simp only [insertAt, slotAt, nodeAt, child_setSlot]
  | cons s' rest' ih =>
    intro segs r n h
    cases segs with
    | nil =>
      simp only [insertAt, slotAt, nodeAt]
      cases kind <;> simp [Node.exact, Node.pfx]
    | cons s rest =>
      simp only [insertAt, slotAt, nodeAt, child_mk, lookup_setChild]
      by_cases hs : s = s'
      · subst hs
        have hrest : rest' ≠ rest ∨ r.match_kind ≠ kind := by
          rcases h with h | h
          · left
            intro e
            exact h (by rw [e])
          · exact Or.inr h
        have := ih rest r (match n.child s with | some c => c | none => Node.empty) hrest
        simp only [slotAt] at this
        simp only [if_true]
        rw [this]
        cases hc : n.child s with
        | none =>
          have := slotAt_empty kind rest
          simp only [slotAt] at this
          simp [this]
        | some c => simp
      · simp only [hs, if_false]
        rfl

theorem slotAt_foldl_insert (kind : MatchKind) (segs : List String) (post : List Route) :
    ∀ (n : Node),
      (∀ r ∈ post, segments r.incoming_path ≠ segs ∨ r.match_kind ≠ kind) →
      slotAt kind segs (post.foldl Node.insert n) = slotAt kind segs n := by
  induction post with
  | nil => intro n _; rfl
  | cons r post ih =>
    intro n h
    simp only [List.foldl_cons]
    rw [ih _ (fun x hx => h x (List.mem_cons_of_mem _ hx))]
    exact slotAt_insertAt_other kind _ segs r n (h r (List.mem_cons_self _ _))

/-- Last write wins: when the surviving route records are `pre ++ r :: post` and no record of
`post` has the path and kind of `r`, the built table holds `r` in the slot of its kind at the
node for its path. -/
theorem buildTable_holds_last_record (urlParses : String → Bool) (recs : Records)
    (pre post : List Route) (r : Route)
    (hrecs : recs.routes.filter (Route.survives (buildBackends urlParses recs.backends))
      = pre ++ r :: post)
    (hlast : ∀ x ∈ post,
      segments x.incoming_path ≠ segments r.incoming_path ∨ x.match_kind ≠ r.match_kind) :
    slotAt r.match_kind (segments r.incoming_path) (buildTable urlParses recs).trie = some r := by
  simp only [buildTable, hrecs, List.foldl_append, List.foldl_cons]
  rw [slotAt_foldl_insert _ _ post _ hlast]
  exact slotAt_insertAt_same _ r _

/-- Exact beats prefix on built tables: the last surviving exact record for a path is what
lookup of that path returns, whatever prefix records the store holds. -/
theorem buildTable_lookup_last_exact (urlParses : String → Bool) (recs : Records)
    (pre post : List Route) (r : Route)
    (hrecs : recs.routes.filter (Route.survives (buildBackends urlParses recs.backends))
      = pre ++ r :: post)
    (hkind : r.match_kind = .exact)
    (hlast : ∀ x ∈ post,
      segments x.incoming_path ≠ segments r.incoming_path ∨ x.match_kind ≠ r.match_kind) :
    (buildTable urlParses recs).lookup r.incoming_path = some r := by
  have h := buildTable_holds_last_record urlParses recs pre post r hrecs hlast
  rw [hkind] at h
  exact lookupFrom_exact _ _ none r h

/-- C5: for every table and every path `P` for which the table holds an exact route (the
node for `P` carries it in its exact slot), looking up `P` returns that exact route, whatever
prefix routes the table holds on the way to `P` or at the node of `P` itself. -/
theorem lookup_exact_beats_pfx (t : RouteTable) (P : String) (r : Route)
    (h : t.exactRouteAt P = some r) : t.lookup P = some r :=
  lookupFrom_exact (segments P) t.trie none r h

/-- C5 at a built table: `/foo/bar` has an exact route, a prefix route at its own node and a
shallower prefix route; lookup returns the exact route. -/
theorem lookup_exact_beats_pfx_witness :
    overlappingTable.pfxRouteAt "/foo" = some (backendRoute "/foo" .pfx "svc-a") ∧
      overlappingTable.pfxRouteAt "/foo/bar" = some (goneRoute "/foo/bar" .pfx) ∧
      overlappingTable.lookup "/foo/bar" = some (redirectRoute "/foo/bar" .exact "/baz" true) :=
  ⟨by decide, by decide,
    lookup_exact_beats_pfx overlappingTable "/foo/bar"
      (redirectRoute "/foo/bar" .exact "/baz" true) (by decide)⟩

/-- C6, as stated, fails: a table with prefix routes at `/a` and `/a/b` that also holds an exact
route at `/a/b/c` and a prefix route at `/a/x` returns those for `/a/b/c` and `/a/x`. -/
theorem lookup_deepest_pfx_shadowed :
    shadowedTable.pfxRouteAt "/a" = some (goneRoute "/a" .pfx) ∧
      shadowedTable.pfxRouteAt "/a/b" = some (goneRoute "/a/b" .pfx) ∧
      shadowedTable.lookup "/a/b/c" = some (goneRoute "/a/b/c" .exact) ∧
      shadowedTable.lookup "/a/b/c" ≠ some (goneRoute "/a/b" .pfx) ∧
      shadowedTable.lookup "/a/x" = some (goneRoute "/a/x" .pfx) ∧
      shadowedTable.lookup "/a/x" ≠ some (goneRoute "/a" .pfx) := by
  decide

/-- C6, amended: for every table with a prefix route at `/a` and a prefix route at `/a/b`: if
the table holds no route (exact or prefix) at `/a/b/c`, lookup of `/a/b/c` returns the `/a/b`
route; and if it holds no route (exact or prefix) at `/a/x`, lookup of `/a/x` returns the `/a`
route. -/
theorem lookup_deepest_pfx (t : RouteTable) (ra rb : Route)
    (ha : t.pfxRouteAt "/a" = some ra) (hb : t.pfxRouteAt "/a/b" = some rb) :
    (t.exactRouteAt "/a/b/c" = none → t.pfxRouteAt "/a/b/c" = none →
        t.lookup "/a/b/c" = some rb) ∧
      (t.exactRouteAt "/a/x" = none → t.pfxRouteAt "/a/x" = none →
        t.lookup "/a/x" = some ra) := by
  have sa : segments "/a" = ["a"] := by decide
  have sb : segments "/a/b" = ["a", "b"] := by decide
  have sc : segments "/a/b/c" = ["a", "b", "c"] := by decide
  have sx : segments "/a/x" = ["a", "x"] := by decide
  simp only [RouteTable.pfxRouteAt, RouteTable.exactRouteAt, RouteTable.lookup, slotAt, sa, sb,
    sc, sx, nodeAt, lookupFrom] at *
  cases hca : t.trie.child "a" with
  | none => simp [hca] at ha
  | some na =>
    simp only [hca] at ha hb ⊢
    constructor
    · cases hcb : na.child "b" with
      | none => simp [hcb] at hb
      | some nb =>
        simp only [hcb] at hb ⊢
        cases hcc : nb.child "c" with
        | none => simp [hb]
        | some nc =>
          intro he hp
          simp_all
    · cases hcx : na.child "x" with
      | none => simp [ha]
      | some nx =>
        intro he hp
        simp_all

/-- C6 (amended) at a built table. -/
theorem lookup_deepest_pfx_witness :
    nestedTable.lookup "/a/b/c" = some (goneRoute "/a/b" .pfx) ∧
      nestedTable.lookup "/a/x" = some (goneRoute "/a" .pfx) :=
  have h := lookup_deepest_pfx nestedTable (goneRoute "/a" .pfx) (goneRoute "/a/b" .pfx)
    (by decide) (by decide)
  ⟨h.1 (by decide) (by decide), h.2 (by decide) (by decide)⟩

theorem step_keeps_published (urlParses : String → Bool) (st : Refresher) (s : RefreshStep)
    (h : s ≠ .routesDone) : (st.step urlParses s).published = st.published := by
  unfold Refresher.step
  split <;> simp_all

theorem run_keeps_published (urlParses : String → Bool) (steps : List RefreshStep) :
    ∀ st : Refresher, (∀ s ∈ steps, s ≠ .routesDone) →
      (st.run urlParses steps).published = st.published := by
  induction steps with
  | nil => intro st _; rfl
  | cons s rest ih =>
    intro st h
    simp only [Refresher.run, List.foldl_cons]
    have hrest := ih (st.step urlParses s) (fun x hx => h x (List.mem_cons_of_mem _ hx))
    simp only [Refresher.run] at hrest
    rw [hrest]
    exact step_keeps_published urlParses st s (h s (List.mem_cons_self _ _))

theorem run_routeReads (urlParses : String → Bool) (rs : List Route) :
    ∀ (st : Refresher) (registry : List (String × Backend)) (trie : Node),
      st.phase = .loadingRoutes registry trie →
      st.run urlParses (rs.map .routeRead)
        = { st with
            phase := BuildPhase.loadingRoutes registry
              (List.foldl Node.insert trie (rs.filter (Route.survives registry))) } := by
  induction rs with
  | nil =>
    intro st registry trie h
    simp [Refresher.run, ← h]
  | cons r rest ih =>
    intro st registry trie h
    simp only [List.map_cons, Refresher.run, List.foldl_cons]
    have hstep : st.step urlParses (.routeRead r)
        = { st with phase :=
              .loadingRoutes registry (if r.survives registry then trie.insert r else trie) } := by
      simp [Refresher.step, h]
    have := ih (st.step urlParses (.routeRead r)) registry
      (if r.survives registry then trie.insert r else trie) (by rw [hstep])
    simp only [Refresher.run] at this
    rw [this, hstep]
    by_cases hs : r.survives registry = true
    · simp [List.filter, hs]
    · simp [List.filter, hs]

theorem run_append (urlParses : String → Bool) (st : Refresher) (xs ys : List RefreshStep) :
    st.run urlParses (xs ++ ys) = (st.run urlParses xs).run urlParses ys := by
  simp [Refresher.run, List.foldl_append]

/-- A refresh in which all records are read publishes the table the builder makes of them. -/
theorem completedRefresh_publishes (urlParses : String → Bool) (st : Refresher)
    (hidle : st.phase = .idle) (bs : List Backend) (rs : List Route) :
    st.run urlParses (completedRefresh bs rs)
      = { st with published := buildTable urlParses ⟨bs, rs⟩ } := by
  have h1 : st.run urlParses [.trigger, .backendsRead bs]
      = { st with phase := .loadingRoutes (buildBackends urlParses bs) Node.empty } := by
    simp [Refresher.run, Refresher.step, hidle]
  have h2 := run_routeReads urlParses rs (st.run urlParses [.trigger, .backendsRead bs])
    (buildBackends urlParses bs) Node.empty (by rw [h1])
  have hsplit : completedRefresh bs rs
      = [.trigger, .backendsRead bs] ++ (rs.map .routeRead ++ [.routesDone]) := rfl
  rw [hsplit, run_append, run_append, h2, h1]
  simp [Refresher.run, Refresher.step, buildTable, hidle]

/-- C7: a refresh whose build fails hard leaves the published route table unchanged. (1) Over
any steps of the refresher in which no build completes (so over a failed build, and at every
point while a build is in flight) the published table is the one published before: every
path that resolved before resolves to the same route, and every lookup is unchanged. (2) A
refresh in which the store is unreachable for the backend records ends with the failure logged
and nothing else changed. (3) A refresh in which the store becomes unreachable after the
backend records and any number of route records have been read ends with the failure logged
and nothing else changed: the partly built table is dropped, not published. -/
theorem refresh_failure_keeps_published (urlParses : String → Bool) (st : Refresher) :
    (∀ steps : List RefreshStep, (∀ s ∈ steps, s ≠ .routesDone) →
      (st.run urlParses steps).published = st.published ∧
        (∀ path r, st.published.lookup path = some r →
          (st.run urlParses steps).published.lookup path = some r) ∧
        (∀ path, (st.run urlParses steps).published.lookup path
          = st.published.lookup path)) ∧
      (st.phase = .idle → ∀ err,
        st.run urlParses [.trigger, .backendsFailed err]
          = { st with logged := st.logged ++ [err] }) ∧
      (st.phase = .idle → ∀ bs rs err,
        st.run urlParses (failedRefresh bs rs err)
          = { st with logged := st.logged ++ [err] }) := by
  refine ⟨?_, ?_, ?_⟩
  · intro steps hfail
    have h := run_keeps_published urlParses steps st hfail
    refine ⟨h, ?_, ?_⟩
    · intro path r hr
      rw [h]
      exact hr
    · intro path
      rw [h]
  · intro hidle err
    simp [Refresher.run, Refresher.step, hidle]
  · intro hidle bs rs err
    have h1 : st.run urlParses [.trigger, .backendsRead bs]
        = { st with phase := .loadingRoutes (buildBackends urlParses bs) Node.empty } := by
      simp [Refresher.run, Refresher.step, hidle]
    have h2 := run_routeReads urlParses rs (st.run urlParses [.trigger, .backendsRead bs])
      (buildBackends urlParses bs) Node.empty (by rw [h1])
    have hsplit : failedRefresh bs rs err
        = [.trigger, .backendsRead bs] ++ (rs.map .routeRead ++ [.routesFailed err]) := rfl
    rw [hsplit, run_append, run_append, h2, h1]
    simp [Refresher.run, Refresher.step]
    rw [← hidle]

/-- C7 at a concrete refresher that publishes `overlappingTable`: the store becomes
unreachable after two route records have been read. The partly built table, which would
resolve `/a/x`, exists just before the failure; after the failure `/foo/bar` resolves as
before, `/a/x` still does not resolve, and the failure is logged. -/
theorem refresh_failure_keeps_published_witness :
    (servingRefresher.run httpURL
        (failedRefresh [] partialRoutes "no reachable servers")).published.lookup "/foo/bar"
        = some (redirectRoute "/foo/bar" .exact "/baz" true) ∧
      (servingRefresher.run httpURL
        (failedRefresh [] partialRoutes "no reachable servers")).published.lookup "/a/x"
        = none ∧
      ((servingRefresher.run httpURL
        (failedRefresh [] partialRoutes "no reachable servers").dropLast).building.map
          (fun t => t.lookup "/a/x")) = some (some (goneRoute "/a" .pfx)) ∧
      (servingRefresher.run httpURL
        (failedRefresh [] partialRoutes "no reachable servers")).logged
        = ["no reachable servers"] :=
  have T := refresh_failure_keeps_published httpURL servingRefresher
  ⟨(T.1 (failedRefresh [] partialRoutes "no reachable servers") (by decide)).2.1
      "/foo/bar" (redirectRoute "/foo/bar" .exact "/baz" true) (by decide),
    ((T.1 (failedRefresh [] partialRoutes "no reachable servers") (by decide)).2.2
      "/a/x").trans (by decide),
    by decide,
    congrArg Refresher.logged (T.2.2 rfl [] partialRoutes "no reachable servers")⟩

end Router
